import Mathlib

/-!
# Verification of `app.py` (skin-lesion classifier + nearby-hospitals service)

Shallow embedding of the two pipelines of `src/app.py`:

* the geospatial pipeline: `calculate_distance` (haversine with a bare
  `except` returning `None`), the coordinate defaulting at the top of the
  `nearby_hospitals` route, and the candidate-annotation loop of that route;
* the classification pipeline: `SKIN_CLASSES`, `DISEASE_INFO` and the
  result assembly of the `uploaded` route (argmax class selection).

Python floats are embedded as exact rationals (every float is a rational);
the float arithmetic inside the haversine computation is embedded as exact
real arithmetic.  `round(x, 2)` is embedded as exact rounding to a
multiple of 1/100 (Python's round-half-to-even differs only at exact
half-multiples of 1/100, which no statement here touches).
-/

namespace MajorProject

open Classical

/-- A Python value in a coordinate position.  `float(·)` applied to it either
yields a number (`num q` for an int/float argument, `str s` for a string
argument that parses) or raises (`invalid`: `None`, lists, non-numeric
strings, ...). -/
inductive PyVal where
  | num : ℚ → PyVal
  | str : String → PyVal
  | invalid : PyVal
deriving DecidableEq

/-- Value of a nonempty digit string. -/
def digitsToNat (cs : List Char) : ℕ :=
  cs.foldl (fun a c => 10 * a + (c.toNat - 48)) 0

/-- Modelled builtin: the body of Python `float` on the character list of a
plain unsigned decimal literal (`"16"`, `"16.3067"`, `"16."`, `".5"`),
returned as a pair (mantissa, number of fractional digits).  Exponent
forms, `inf`/`nan`, underscores and surrounding whitespace are not
modelled; on everything else `float` raises, giving `none`. -/
def parseDecCore? (cs : List Char) : Option (ℕ × ℕ) :=
  match cs.splitOn '.' with
  | [ip] =>
      if ip ≠ [] ∧ ip.all Char.isDigit then some (digitsToNat ip, 0) else none
  | [ip, fp] =>
      if (ip ≠ [] ∨ fp ≠ []) ∧ ip.all Char.isDigit ∧ fp.all Char.isDigit then
        some (digitsToNat ip * 10 ^ fp.length + digitsToNat fp, fp.length)
      else none
  | _ => none

/-- Signed mantissa and fractional length of a plain decimal string
(optional sign, then a plain decimal literal). -/
def parseDec? (s : String) : Option (ℤ × ℕ) :=
  match s.toList with
  | '-' :: rest => (parseDecCore? rest).map (fun p => (-(p.1 : ℤ), p.2))
  | '+' :: rest => (parseDecCore? rest).map (fun p => ((p.1 : ℤ), p.2))
  | cs => (parseDecCore? cs).map (fun p => ((p.1 : ℤ), p.2))

/-- Modelled builtin: Python `float` on a string — the exact rational value
of the decimal literal accepted by `parseDec?`. -/
def parseFloat? (s : String) : Option ℚ :=
  (parseDec? s).map (fun p => (p.1 : ℚ) / 10 ^ p.2)

/-- Coercion `float(v)` as used in `calculate_distance`: `some` the numeric value, or
`none` when Python would raise. -/
def PyVal.toFloat? : PyVal → Option ℚ
  | .num q => some q
  | .str s => parseFloat? s
  | .invalid => none

/-- Function `math.radians`. -/
noncomputable def radians (x : ℝ) : ℝ := x * Real.pi / 180

/-- Function `math.atan2 y x` (the C library definition). -/
noncomputable def atan2 (y x : ℝ) : ℝ :=
  if 0 < x then Real.arctan (y / x)
  else if x < 0 then
    (if 0 ≤ y then Real.arctan (y / x) + Real.pi else Real.arctan (y / x) - Real.pi)
  else
    (if 0 < y then Real.pi / 2 else if y < 0 then -(Real.pi / 2) else 0)

/-- Python `round(x, 2)` in exact arithmetic. -/
noncomputable def round2 (x : ℝ) : ℝ := (round (x * 100) : ℤ) / 100

/-- The body of the `try:` block of `calculate_distance` (`app.py` lines
156–167), after the four `float` coercions succeeded with values
`v1 w1 v2 w2`.  `math.sqrt` raises `ValueError` on a negative argument and
the bare `except:` turns that into `None`, hence the two guard branches. -/
noncomputable def haversineBody (v1 w1 v2 w2 : ℝ) : Option ℝ :=
  let R : ℝ := 6371
  let lat1 := radians v1
  let lon1 := radians w1
  let lat2 := radians v2
  let lon2 := radians w2
  let dlat := lat2 - lat1
  let dlon := lon2 - lon1
  let a := Real.sin (dlat / 2) ^ 2 +
    Real.cos lat1 * Real.cos lat2 * Real.sin (dlon / 2) ^ 2
  if a < 0 then none
  else if 1 - a < 0 then none
  else some (round2 (R * (2 * atan2 (Real.sqrt a) (Real.sqrt (1 - a)))))

/-- Function `calculate_distance` (`app.py` lines 154–169): coerce the four arguments
with `float`; any raise inside the `try:` is swallowed by the bare
`except:` and yields `None`. -/
noncomputable def calculate_distance (lat1 lon1 lat2 lon2 : PyVal) : Option ℝ :=
  match lat1.toFloat?, lon1.toFloat?, lat2.toFloat?, lon2.toFloat? with
  | some v1, some w1, some v2, some w2 =>
      haversineBody (v1 : ℝ) (w1 : ℝ) (v2 : ℝ) (w2 : ℝ)
  | _, _, _, _ => none

/-- Constant `DEFAULT_LAT` (`app.py` line 225). -/
def DEFAULT_LAT : String := "16.3067"

/-- Constant `DEFAULT_LNG` (`app.py` line 226). -/
def DEFAULT_LNG : String := "80.4365"

/-- Python truthiness of an optional query-parameter string: `not lat` is
`True` exactly when the parameter is absent (`None`) or the empty string. -/
def falsy : Option String → Bool
  | none => true
  | some s => decide (s = "")

/-- The coordinate defaulting at the top of `nearby_hospitals` (`app.py`
lines 229–233): `if not lat or not lng: lat, lng = DEFAULT_LAT, DEFAULT_LNG`. -/
def resolveCoords (lat lng : Option String) : String × String :=
  if falsy lat || falsy lng then (DEFAULT_LAT, DEFAULT_LNG)
  else (lat.getD "", lng.getD "")

/-- One entry of the JSON array returned by the Nominatim search call in
`nearby_hospitals`.  A `none` field models an absent JSON key; present
values in `lat`/`lon` are arbitrary Python values (normally numeric
strings).  `address_road` is `some r` when `r["address"]["road"]` exists,
`none` when either key is absent. -/
structure OsmResult where
  lat : Option PyVal
  lon : Option PyVal
  display_name : Option String
  address_road : Option String
deriving DecidableEq

/-- One entry of the `hospitals` list built by `nearby_hospitals`
(`app.py` lines 255–261). -/
structure Hospital where
  name : String
  address : String
  lat : PyVal
  lng : PyVal
  distance : Option ℝ

/-- The JSON response of `nearby_hospitals`: the `status: ok` shape of
lines 263–268, or the `status: error` shape of line 271 (the error message
string is not modelled). -/
inductive HospitalsResponse where
  | ok (latitude_used longitude_used : String) (hospitals : List Hospital)
  | error

/-- The candidate loop of `nearby_hospitals` (`app.py` lines 250–261).
`r["lat"]` / `r["lon"]` are direct indexings: a missing key raises
`KeyError`, which escapes the loop to the route-level `except` — modelled
by returning `none` for the whole loop.  Otherwise each candidate is kept,
annotated with its own `calculate_distance` result. -/
noncomputable def buildHospitals (lat lng : String) : List OsmResult → Option (List Hospital)
  | [] => some []
  | r :: rs =>
      match r.lat, r.lon with
      | some rlat, some rlon =>
          let dist := calculate_distance (.str lat) (.str lng) rlat rlon
          (buildHospitals lat lng rs).map (fun hs =>
            { name := r.display_name.getD "Unknown Hospital",
              address := r.address_road.getD "Not Provided",
              lat := rlat, lng := rlon, distance := dist } :: hs)
      | _, _ => none

/-- The `nearby_hospitals` route (`app.py` lines 222–271) given the query
parameters and the parsed JSON array the provider returned.  (The network
call itself and its failure modes are outside the loop being modelled; any
exception raised inside the `try:` yields the `error` response.) -/
noncomputable def nearby_hospitals (latq lngq : Option String)
    (results : List OsmResult) : HospitalsResponse :=
  let c := resolveCoords latq lngq
  match buildHospitals c.1 c.2 results with
  | some hs => .ok c.1 c.2 hs
  | none => .error

/-- Dict `SKIN_CLASSES` (`app.py` lines 16–24): dict lookup, `none` for a
missing key. -/
def SKIN_CLASSES : ℕ → Option String
  | 0 => some "Actinic Keratoses (Solar Keratoses) / Bowenâ€™s disease"
  | 1 => some "Basal Cell Carcinoma"
  | 2 => some "Benign Keratosis"
  | 3 => some "Dermatofibroma"
  | 4 => some "Melanoma"
  | 5 => some "Melanocytic Nevi"
  | 6 => some "Vascular skin lesion"
  | _ => none

/-- One value of the `DISEASE_INFO` dict. -/
structure DiseaseRecord where
  severity : String
  precautions : List String
  food_precautions : List String
  consultation : String
deriving DecidableEq

/-- Dict `DISEASE_INFO` (`app.py` lines 29–148): dict lookup, `none` for a
missing key. -/
def DISEASE_INFO : ℕ → Option DiseaseRecord
  | 0 => some
      { severity := "Moderate to High",
        precautions :=
          ["Use sunscreen SPF 30+ daily.",
           "Avoid direct sunlight.",
           "Regularly monitor for changes."],
        food_precautions :=
          ["Eat fresh fruits and vegetables.",
           "Drink enough water.",
           "Avoid junk and oily food.",
           "Reduce sugar intake.",
           "Avoid alcohol and smoking."],
        consultation := "Dermatologist consultation strongly recommended." }
  | 1 => some
      { severity := "High",
        precautions :=
          ["Avoid UV exposure.",
           "Do not scratch the lesion.",
           "Track lesion growth with photos."],
        food_precautions :=
          ["Eat healthy home-cooked food.",
           "Include fruits and vegetables daily.",
           "Drink enough water.",
           "Avoid alcohol completely.",
           "Avoid processed and junk food."],
        consultation := "Immediate dermatologist visit recommended." }
  | 2 => some
      { severity := "Low to Moderate",
        precautions :=
          ["Avoid skin irritation.",
           "Moisturize dry skin.",
           "Monitor for color or size changes."],
        food_precautions :=
          ["Maintain a balanced diet.",
           "Drink enough water.",
           "Reduce oily and spicy food.",
           "Avoid excess sugar.",
           "Prefer home food."],
        consultation := "Routine dermatology checkup advised." }
  | 3 => some
      { severity := "Low",
        precautions :=
          ["Avoid trauma to the lesion.",
           "Keep skin clean.",
           "Watch for sudden size or texture changes."],
        food_precautions :=
          ["Eat nutritious food.",
           "Include proteins like pulses or eggs.",
           "Drink enough water.",
           "Avoid junk food.",
           "Avoid excessive caffeine."],
        consultation := "Non-urgent dermatology visit recommended." }
  | 4 => some
      { severity := "Very High (dangerous)",
        precautions :=
          ["Avoid sun completely.",
           "Do not delay medical checkup.",
           "Monitor ABCDE(Asymmetry, Border irregularity, Color variation, Diameter(>6 mm), Evolving) signs."],
        food_precautions :=
          ["Eat antioxidant-rich fruits and vegetables.",
           "Drink plenty of water.",
           "Avoid alcohol and smoking.",
           "Avoid processed food.",
           "Maintain a healthy diet to support treatment."],
        consultation := "Urgent dermatologist or oncologist appointment needed." }
  | 5 => some
      { severity := "Low (but monitor)",
        precautions :=
          ["Monitor mole changes.",
           "Use sunscreen daily.",
           "Avoid self-removal."],
        food_precautions :=
          ["Eat fresh fruits and vegetables.",
           "Drink enough water.",
           "Avoid junk food.",
           "Reduce sugar intake.",
           "Maintain a healthy lifestyle."],
        consultation := "Consult dermatologist if changes appear." }
  | 6 => some
      { severity := "Low to Moderate",
        precautions :=
          ["Avoid scratching.",
           "Keep the area clean.",
           "Watch for sudden swelling or bleeding."],
        food_precautions :=
          ["Drink enough water.",
           "Eat balanced meals.",
           "Reduce salty food.",
           "Avoid alcohol.",
           "Avoid junk food."],
        consultation := "Dermatology consultation recommended." }
  | _ => none

/-- Function `np.argmax` on a 1-d array: the index of the first occurrence of the
maximum (ties resolved to the lowest index).  On the empty list the model
returns 0 (numpy raises there; the route always passes a length-7 vector). -/
def np_argmax : List ℚ → ℕ
  | [] => 0
  | x :: xs => if ∀ y ∈ xs, y ≤ x then 0 else np_argmax xs + 1

/-- Python `round(x, 2)` on an exact rational. -/
def round2Q (x : ℚ) : ℚ := (round (x * 100) : ℤ) / 100

/-- The context the `uploaded` route (`app.py` lines 183–215) passes to its
template, as a function of the model's probability vector
`prediction[0]`. -/
structure ClassificationView where
  predictions : String
  acc : ℚ
  severity_level : String
  precautions : List String
  food_precautions : List String
  consultation : String
deriving DecidableEq

/-- Result assembly of the `uploaded` route (`app.py` lines 197–215):
`pred_class = np.argmax(prediction)`, then dict/array lookups (a missing
key or out-of-range index would raise, modelled by `none`), then the
template context. -/
def uploaded (prediction : List ℚ) : Option ClassificationView :=
  let pred_class := np_argmax prediction
  match SKIN_CLASSES pred_class, prediction[pred_class]?, DISEASE_INFO pred_class with
  | some disease, some p, some info =>
      some { predictions := disease,
             acc := round2Q (p * 100),
             severity_level := info.severity,
             precautions := info.precautions,
             food_precautions := info.food_precautions,
             consultation := info.consultation }
  | _, _, _ => none

/-- The Distance Calculator formula as the spec states it (§4.5): with
Δlat, Δlon the latitude/longitude differences in radians,
`a = sin²(Δlat/2) + cos(lat1)·cos(lat2)·sin²(Δlon/2)`,
`c = 2·atan2(√a, √(1−a))`, `distance = R·c` with `R = 6371`. -/
noncomputable def spec_haversine (lat1 lon1 lat2 lon2 : ℝ) : ℝ :=
  let R : ℝ := 6371
  let dlat := radians lat2 - radians lat1
  let dlon := radians lon2 - radians lon1
  let a := Real.sin (dlat / 2) ^ 2 +
    Real.cos (radians lat1) * Real.cos (radians lat2) * Real.sin (dlon / 2) ^ 2
  let c := 2 * atan2 (Real.sqrt a) (Real.sqrt (1 - a))
  R * c

lemma sin_half_sq (t : ℝ) : Real.sin (t / 2) ^ 2 = 1 / 2 - Real.cos t / 2 := by
  have h := Real.sin_sq (t / 2)
  have h2 := Real.cos_sq (t / 2)
  have h3 : 2 * (t / 2) = t := by ring
  rw [h3] at h2
  rw [h2] at h
  linarith

lemma cos_radians_nonneg {x : ℝ} (hx : |x| ≤ 90) : 0 ≤ Real.cos (radians x) := by
  have hπ := Real.pi_pos
  obtain ⟨hl, hu⟩ := abs_le.mp hx
  apply Real.cos_nonneg_of_mem_Icc
  constructor
  · show -(Real.pi / 2) ≤ x * Real.pi / 180
    nlinarith
  · show x * Real.pi / 180 ≤ Real.pi / 2
    nlinarith

lemma havA_nonneg (v1 w1 v2 w2 : ℝ) (h1 : |v1| ≤ 90) (h2 : |v2| ≤ 90) :
    0 ≤ Real.sin ((radians v2 - radians v1) / 2) ^ 2 +
      Real.cos (radians v1) * Real.cos (radians v2) *
        Real.sin ((radians w2 - radians w1) / 2) ^ 2 := by
  have c1 := cos_radians_nonneg h1
  have c2 := cos_radians_nonneg h2
  have hs := sq_nonneg (Real.sin ((radians v2 - radians v1) / 2))
  have hp := mul_nonneg (mul_nonneg c1 c2)
    (sq_nonneg (Real.sin ((radians w2 - radians w1) / 2)))
  linarith

lemma havA_le_one (v1 w1 v2 w2 : ℝ) (h1 : |v1| ≤ 90) (h2 : |v2| ≤ 90) :
    Real.sin ((radians v2 - radians v1) / 2) ^ 2 +
      Real.cos (radians v1) * Real.cos (radians v2) *
        Real.sin ((radians w2 - radians w1) / 2) ^ 2 ≤ 1 := by
  have c1 := cos_radians_nonneg h1
  have c2 := cos_radians_nonneg h2
  set l1 := radians v1
  set l2 := radians v2
  set d := radians w2 - radians w1
  rw [sin_half_sq (l2 - l1), sin_half_sq d]
  have e3 := Real.cos_sub l2 l1
  have e4 := Real.cos_add l1 l2
  have e5 := Real.cos_le_one (l1 + l2)
  have e6 : 0 ≤ Real.cos l1 * Real.cos l2 * (Real.cos d + 1) :=
    mul_nonneg (mul_nonneg c1 c2) (by linarith [Real.neg_one_le_cos d])
  nlinarith

/-- In geographic latitude range the guards of `haversineBody` cannot fire,
and the result is the spec's formula rounded to two decimals. -/
lemma haversineBody_eq_spec {v1 w1 v2 w2 : ℝ} (h1 : |v1| ≤ 90) (h2 : |v2| ≤ 90) :
    haversineBody v1 w1 v2 w2 = some (round2 (spec_haversine v1 w1 v2 w2)) := by
  have hA0 := havA_nonneg v1 w1 v2 w2 h1 h2
  have hA1 := havA_le_one v1 w1 v2 w2 h1 h2
  simp only [haversineBody, spec_haversine]
  rw [if_neg (not_lt.mpr hA0), if_neg (not_lt.mpr (by linarith))]

/-- Zero distance between a point and itself. -/
lemma haversineBody_self (v w : ℝ) : haversineBody v w v w = some 0 := by
  have hA : Real.sin ((radians v - radians v) / 2) ^ 2 +
      Real.cos (radians v) * Real.cos (radians v) *
        Real.sin ((radians w - radians w) / 2) ^ 2 = 0 := by
    simp
  simp only [haversineBody]
  rw [hA]
  rw [if_neg (by norm_num), if_neg (by norm_num)]
  have hz : (1 : ℝ) - 0 = 1 := by norm_num
  rw [hz, Real.sqrt_zero, Real.sqrt_one]
  have hat : atan2 0 1 = 0 := by
    simp only [atan2]
    rw [if_pos one_pos]
    simp [Real.arctan_zero]
  rw [hat]
  have : (6371 : ℝ) * (2 * 0) = 0 := by ring
  rw [this]
  simp [round2]

/-- A quarter of the great circle: from (0,0) to (0,90). -/
lemma haversineBody_quarter : haversineBody 0 0 0 90 = some 10007.54 := by
  have hr0 : radians 0 = 0 := by simp [radians]
  have hr90 : radians 90 = Real.pi / 2 := by unfold radians; ring
  have hA : Real.sin ((radians 0 - radians 0) / 2) ^ 2 +
      Real.cos (radians 0) * Real.cos (radians 0) *
        Real.sin ((radians 90 - radians 0) / 2) ^ 2 = 1 / 2 := by
    rw [hr0, hr90]
    have h4 : ((Real.pi / 2 - 0) / 2) = Real.pi / 4 := by ring
    rw [h4, Real.sin_pi_div_four]
    have h2 : (Real.sqrt 2 / 2) ^ 2 = 1 / 2 := by
      rw [div_pow, Real.sq_sqrt (by norm_num : (0 : ℝ) ≤ 2)]
      norm_num
    rw [h2]
    norm_num
  simp only [haversineBody]
  rw [hA]
  rw [if_neg (by norm_num), if_neg (by norm_num)]
  have h12 : (1 : ℝ) - 1 / 2 = 1 / 2 := by norm_num
  rw [h12]
  have hpos : 0 < Real.sqrt (1 / 2) := Real.sqrt_pos.mpr (by norm_num)
  have hat : atan2 (Real.sqrt (1 / 2)) (Real.sqrt (1 / 2)) = Real.pi / 4 := by
    simp only [atan2]
    rw [if_pos hpos, div_self (ne_of_gt hpos), Real.arctan_one]
  rw [hat]
  have harg : (6371 : ℝ) * (2 * (Real.pi / 4)) * 100 = 318550 * Real.pi := by ring
  unfold round2
  rw [harg]
  have hround : round ((318550 : ℝ) * Real.pi) = 1000754 := by
    rw [round_eq]
    apply Int.floor_eq_iff.mpr
    have hπl := Real.pi_gt_d6
    have hπu := Real.pi_lt_d6
    constructor
    · push_cast
      nlinarith
    · push_cast
      nlinarith
  rw [hround]
  norm_num

/-- Swapping the two coordinate pairs leaves the haversine body unchanged. -/
lemma haversineBody_symm (v1 w1 v2 w2 : ℝ) :
    haversineBody v1 w1 v2 w2 = haversineBody v2 w2 v1 w1 := by
  have hA : Real.sin ((radians v1 - radians v2) / 2) ^ 2 +
      Real.cos (radians v2) * Real.cos (radians v1) *
        Real.sin ((radians w1 - radians w2) / 2) ^ 2 =
      Real.sin ((radians v2 - radians v1) / 2) ^ 2 +
      Real.cos (radians v1) * Real.cos (radians v2) *
        Real.sin ((radians w2 - radians w1) / 2) ^ 2 := by
    have hv : (radians v1 - radians v2) / 2 = -((radians v2 - radians v1) / 2) := by ring
    have hw : (radians w1 - radians w2) / 2 = -((radians w2 - radians w1) / 2) := by ring
    rw [hv, hw, Real.sin_neg, Real.sin_neg]
    ring
  simp only [haversineBody]
  rw [hA]

lemma urgent_split :
    "Urgent dermatologist or oncologist appointment needed." =
      "" ++ "Urgent" ++ " dermatologist or oncologist appointment needed." := by decide

lemma calculate_distance_num (a b c d : ℚ) :
    calculate_distance (.num a) (.num b) (.num c) (.num d) =
      haversineBody (a : ℝ) (b : ℝ) (c : ℝ) (d : ℝ) := rfl

/-- C3: for every pair of numeric coordinates (in geographic latitude
range), `calculate_distance` returns the haversine great-circle distance of
the spec's formula on a sphere of radius 6371 km rounded to 2 decimal
places; in particular the distance from (16.3067, 80.4365) to itself is
0.00 and the distance from (0,0) to (0,90) is 10007.54 km. -/
theorem calculate_distance_haversine :
    (∀ lat1 lon1 lat2 lon2 : ℚ, |lat1| ≤ 90 → |lat2| ≤ 90 →
        calculate_distance (.num lat1) (.num lon1) (.num lat2) (.num lon2) =
          some (round2 (spec_haversine (lat1 : ℝ) (lon1 : ℝ) (lat2 : ℝ) (lon2 : ℝ)))) ∧
    calculate_distance (.num 16.3067) (.num 80.4365) (.num 16.3067) (.num 80.4365) =
      some 0 ∧
    calculate_distance (.num 0) (.num 0) (.num 0) (.num 90) = some 10007.54 := by
  refine ⟨?_, ?_, ?_⟩
  · intro lat1 lon1 lat2 lon2 h1 h2
    rw [calculate_distance_num]
    apply haversineBody_eq_spec
    · rw [show ((lat1 : ℝ)) = ((lat1 : ℚ) : ℝ) from rfl, ← Rat.cast_abs]
      exact_mod_cast h1
    · rw [← Rat.cast_abs]
      exact_mod_cast h2
  · rw [calculate_distance_num]
    exact haversineBody_self _ _
  · rw [calculate_distance_num]
    have h0 : ((0 : ℚ) : ℝ) = 0 := by norm_num
    have h90 : ((90 : ℚ) : ℝ) = 90 := by norm_num
    rw [h0, h90]
    exact haversineBody_quarter

/-- C3 witness: the universal part applied at the concrete quarter-circle
input, hypotheses discharged there. -/
theorem calculate_distance_haversine_witness :
    |(0 : ℚ)| ≤ 90 ∧
    calculate_distance (.num 0) (.num 0) (.num 0) (.num 90) =
      some (round2 (spec_haversine ((0 : ℚ) : ℝ) ((0 : ℚ) : ℝ) ((0 : ℚ) : ℝ) ((90 : ℚ) : ℝ))) :=
  ⟨by norm_num, calculate_distance_haversine.1 0 0 0 90 (by norm_num) (by norm_num)⟩

/-- C4: an argument on which `float` raises (non-numeric string, `None`,
...) makes `calculate_distance` return the unknown-distance marker `None`
instead of propagating the error. -/
theorem calculate_distance_invalid_input (lat1 lon1 lat2 lon2 : PyVal)
    (h : lat1.toFloat? = none ∨ lon1.toFloat? = none ∨
         lat2.toFloat? = none ∨ lon2.toFloat? = none) :
    calculate_distance lat1 lon1 lat2 lon2 = none := by
  unfold calculate_distance
  cases h1 : lat1.toFloat? <;> cases h2 : lon1.toFloat? <;>
    cases h3 : lat2.toFloat? <;> cases h4 : lon2.toFloat? <;> simp_all

/-- C4 witness: a non-numeric latitude string yields `None`. -/
theorem calculate_distance_invalid_input_witness :
    (PyVal.str "abc").toFloat? = none ∧
    calculate_distance (.str "abc") (.num 0) (.num 1) (.num 2) = none :=
  ⟨by decide, calculate_distance_invalid_input _ _ _ _ (Or.inl (by decide))⟩

/-- C10: `calculate_distance` is symmetric in its two coordinate pairs. -/
theorem calculate_distance_symmetric (a b c d : ℚ) :
    calculate_distance (.num a) (.num b) (.num c) (.num d) =
      calculate_distance (.num c) (.num d) (.num a) (.num b) := by
  rw [calculate_distance_num, calculate_distance_num]
  exact haversineBody_symm _ _ _ _

/-- C10 witness: symmetry at a concrete pair of coordinate pairs. -/
theorem calculate_distance_symmetric_witness :
    calculate_distance (.num 10) (.num 20) (.num 30) (.num 40) =
      calculate_distance (.num 30) (.num 40) (.num 10) (.num 20) :=
  calculate_distance_symmetric 10 20 30 40

lemma parseFloat?_empty : parseFloat? "" = none := rfl

lemma parse_default_lat : parseFloat? "16.3067" = some 16.3067 := by
  have h : parseDec? "16.3067" = some (163067, 4) := by decide
  simp [parseFloat?, h]
  norm_num

lemma parse_default_lng : parseFloat? "80.4365" = some 80.4365 := by
  have h : parseDec? "80.4365" = some (804365, 4) := by decide
  simp [parseFloat?, h]
  norm_num

/-- C2: with either query parameter absent the resolved origin is the
default coordinate, whose strings coerce to the floats (16.3067, 80.4365);
with both parameters present and numeric, the resolved origin is exactly
the supplied strings, which coerce to their parsed float values
unchanged. -/
theorem coordinate_resolution :
    (∀ latq lngq : Option String, latq = none ∨ lngq = none →
        resolveCoords latq lngq = (DEFAULT_LAT, DEFAULT_LNG) ∧
        (PyVal.str (resolveCoords latq lngq).1).toFloat? = some 16.3067 ∧
        (PyVal.str (resolveCoords latq lngq).2).toFloat? = some 80.4365) ∧
    (∀ (s t : String) (qs qt : ℚ), parseFloat? s = some qs → parseFloat? t = some qt →
        resolveCoords (some s) (some t) = (s, t) ∧
        (PyVal.str s).toFloat? = some qs ∧ (PyVal.str t).toFloat? = some qt) := by
  constructor
  · intro latq lngq h
    have hr : resolveCoords latq lngq = (DEFAULT_LAT, DEFAULT_LNG) := by
      rcases h with h | h <;> subst h <;> simp [resolveCoords, falsy]
    refine ⟨hr, ?_, ?_⟩
    · rw [hr]
      simpa [PyVal.toFloat?, DEFAULT_LAT] using parse_default_lat
    · rw [hr]
      simpa [PyVal.toFloat?, DEFAULT_LNG] using parse_default_lng
  · intro s t qs qt hs ht
    have hs' : s ≠ "" := by
      intro he
      rw [he, parseFloat?_empty] at hs
      exact absurd hs (by simp)
    have ht' : t ≠ "" := by
      intro he
      rw [he, parseFloat?_empty] at ht
      exact absurd ht (by simp)
    refine ⟨?_, ?_, ?_⟩
    · simp [resolveCoords, falsy, hs', ht']
    · simpa [PyVal.toFloat?] using hs
    · simpa [PyVal.toFloat?] using ht

/-- C2 witness: both parts applied at concrete inputs. -/
theorem coordinate_resolution_witness :
    (resolveCoords none (some "80.9") = (DEFAULT_LAT, DEFAULT_LNG) ∧
      (PyVal.str (resolveCoords none (some "80.9")).1).toFloat? = some 16.3067 ∧
      (PyVal.str (resolveCoords none (some "80.9")).2).toFloat? = some 80.4365) ∧
    (resolveCoords (some "16.3067") (some "80.4365") = ("16.3067", "80.4365") ∧
      (PyVal.str "16.3067").toFloat? = some 16.3067 ∧
      (PyVal.str "80.4365").toFloat? = some 80.4365) :=
  ⟨coordinate_resolution.1 none (some "80.9") (Or.inl rfl),
   coordinate_resolution.2 "16.3067" "80.4365" 16.3067 80.4365
     parse_default_lat parse_default_lng⟩

/-- C9: if either query parameter is absent or the empty string — in
particular when exactly one of the two is supplied — both coordinates are
replaced by the defaults and the supplied value is discarded. -/
theorem one_sided_params_defaulted (latq lngq : Option String)
    (h : latq = none ∨ latq = some "" ∨ lngq = none ∨ lngq = some "") :
    resolveCoords latq lngq = (DEFAULT_LAT, DEFAULT_LNG) := by
  rcases h with h | h | h | h <;> subst h <;> simp [resolveCoords, falsy]

/-- C9 witness: a supplied latitude is discarded when the longitude is
absent. -/
theorem one_sided_params_defaulted_witness :
    resolveCoords (some "17.25") none = (DEFAULT_LAT, DEFAULT_LNG) :=
  one_sided_params_defaulted (some "17.25") none (Or.inr (Or.inr (Or.inl rfl)))

lemma np_argmax_lt_length : ∀ l : List ℚ, l ≠ [] → np_argmax l < l.length := by
  intro l
  induction l with
  | nil => intro h; exact absurd rfl h
  | cons x xs ih =>
    intro _
    simp only [np_argmax]
    split
    · simp
    · rename_i hall
      have hxs : xs ≠ [] := by
        intro he
        subst he
        exact hall (by intro y hy; cases hy)
      have := ih hxs
      simpa using Nat.succ_lt_succ this

lemma np_argmax_is_max : ∀ (l : List ℚ) (i : ℕ), i < l.length →
    l.getD i 0 ≤ l.getD (np_argmax l) 0 := by
  intro l
  induction l with
  | nil => intro i hi; simp at hi
  | cons x xs ih =>
    intro i hi
    by_cases hc : ∀ y ∈ xs, y ≤ x
    · rw [np_argmax, if_pos hc, List.getD_cons_zero]
      match i with
      | 0 => rw [List.getD_cons_zero]
      | j + 1 =>
        rw [List.getD_cons_succ]
        have hj : j < xs.length := by simpa using hi
        exact hc _ (by rw [List.getD_eq_getElem xs 0 hj]; exact List.getElem_mem hj)
    · rw [np_argmax, if_neg hc, List.getD_cons_succ]
      push_neg at hc
      obtain ⟨y, hy, hxy⟩ := hc
      match i with
      | 0 =>
        rw [List.getD_cons_zero]
        obtain ⟨j, hj, rfl⟩ := List.mem_iff_getElem.mp hy
        calc x ≤ xs[j] := le_of_lt hxy
        _ = xs.getD j 0 := (List.getD_eq_getElem xs 0 hj).symm
        _ ≤ xs.getD (np_argmax xs) 0 := ih j hj
      | j + 1 =>
        rw [List.getD_cons_succ]
        exact ih j (by simpa using hi)

lemma np_argmax_first : ∀ (l : List ℚ) (i : ℕ), i < l.length →
    l.getD i 0 = l.getD (np_argmax l) 0 → np_argmax l ≤ i := by
  intro l
  induction l with
  | nil => intro i hi; simp at hi
  | cons x xs ih =>
    intro i hi heq
    by_cases hc : ∀ y ∈ xs, y ≤ x
    · rw [np_argmax, if_pos hc]
      exact Nat.zero_le i
    · rw [np_argmax, if_neg hc]
      rw [np_argmax, if_neg hc, List.getD_cons_succ] at heq
      push_neg at hc
      obtain ⟨y, hy, hxy⟩ := hc
      match i with
      | 0 =>
        exfalso
        rw [List.getD_cons_zero] at heq
        obtain ⟨j, hj, rfl⟩ := List.mem_iff_getElem.mp hy
        have h1 : xs[j] ≤ xs.getD (np_argmax xs) 0 := by
          rw [← List.getD_eq_getElem xs 0 hj]
          exact np_argmax_is_max xs j hj
        rw [← heq] at h1
        exact absurd h1 (not_le.mpr hxy)
      | j + 1 =>
        rw [List.getD_cons_succ] at heq
        exact Nat.succ_le_succ (ih j (by simpa using hi) heq)

/-- C5: the predicted class (`np.argmax` of the probability vector) is a
valid index, carries the maximum probability, and on an exact tie the
lowest class identifier wins. -/
theorem np_argmax_selection_rule (l : List ℚ) (h : l ≠ []) :
    np_argmax l < l.length ∧
    (∀ i, i < l.length → l.getD i 0 ≤ l.getD (np_argmax l) 0) ∧
    (∀ i, i < l.length → l.getD i 0 = l.getD (np_argmax l) 0 → np_argmax l ≤ i) :=
  ⟨np_argmax_lt_length l h,
   fun i hi => np_argmax_is_max l i hi,
   fun i hi hEq => np_argmax_first l i hi hEq⟩

/-- C5 witness: on a length-7 vector with an exact tie between classes 1
and 2, class 1 is selected. -/
theorem np_argmax_selection_rule_witness :
    np_argmax [0, 3, 3, 1, 1, 0, (0 : ℚ)] = 1 ∧
    np_argmax [0, 3, 3, 1, 1, 0, (0 : ℚ)] < [0, 3, 3, 1, 1, 0, (0 : ℚ)].length :=
  ⟨by decide,
   (np_argmax_selection_rule [0, 3, 3, 1, 1, 0, (0 : ℚ)] (by decide)).1⟩

/-- C6: for every class identifier 0–6 the advisory catalog has a record
with non-empty precaution and dietary lists and a non-empty consultation
statement. -/
theorem disease_info_total (k : ℕ) (hk : k < 7) :
    ∃ rec, DISEASE_INFO k = some rec ∧ rec.precautions ≠ [] ∧
      rec.food_precautions ≠ [] ∧ rec.consultation ≠ "" := by
  have H : ∀ k < 7, ∃ rec, DISEASE_INFO k = some rec ∧ rec.precautions ≠ [] ∧
      rec.food_precautions ≠ [] ∧ rec.consultation ≠ "" := by decide
  exact H k hk

/-- C6 witness: the lookup at class 4 succeeds. -/
theorem disease_info_total_witness :
    4 < 7 ∧ (DISEASE_INFO 4).isSome = true := by
  refine ⟨by decide, ?_⟩
  obtain ⟨rec, hrec, -, -, -⟩ := disease_info_total 4 (by decide)
  rw [hrec]
  rfl

/-- C8: whenever the predicted class is 4, the assembled result has label
"Melanoma", severity "Very High (dangerous)", and a consultation statement
containing the word "Urgent". -/
theorem class4_melanoma_view (prediction : List ℚ) (h : np_argmax prediction = 4) :
    ∃ view p, prediction[4]? = some p ∧ uploaded prediction = some view ∧
      view.predictions = "Melanoma" ∧
      view.severity_level = "Very High (dangerous)" ∧
      ∃ s t : String, view.consultation = s ++ "Urgent" ++ t := by
  have hne : prediction ≠ [] := by
    intro he
    rw [he] at h
    simp [np_argmax] at h
  have hlen : 4 < prediction.length := by
    have := np_argmax_lt_length prediction hne
    rwa [h] at this
  obtain ⟨p, hp⟩ : ∃ p, prediction[4]? = some p :=
    ⟨prediction[4], List.getElem?_eq_getElem hlen⟩
  refine ⟨⟨"Melanoma", round2Q (p * 100), "Very High (dangerous)",
      ["Avoid sun completely.", "Do not delay medical checkup.",
       "Monitor ABCDE(Asymmetry, Border irregularity, Color variation, Diameter(>6 mm), Evolving) signs."],
      ["Eat antioxidant-rich fruits and vegetables.", "Drink plenty of water.",
       "Avoid alcohol and smoking.", "Avoid processed food.",
       "Maintain a healthy diet to support treatment."],
      "Urgent dermatologist or oncologist appointment needed."⟩, p, hp, ?_, rfl, rfl,
    "", " dermatologist or oncologist appointment needed.", urgent_split⟩
  simp only [uploaded]
  rw [h, hp]
  rfl

/-- C8 witness: a concrete distribution with argmax 4 produces a result. -/
theorem class4_melanoma_view_witness :
    np_argmax [0, 0, 0, 0, (1 : ℚ), 0, 0] = 4 ∧
    (uploaded [0, 0, 0, 0, (1 : ℚ), 0, 0]).isSome = true := by
  refine ⟨by decide, ?_⟩
  obtain ⟨view, p, -, hview, -, -, -⟩ :=
    class4_melanoma_view [0, 0, 0, 0, (1 : ℚ), 0, 0] (by decide)
  rw [hview]
  rfl

lemma buildHospitals_total (lat lng : String) :
    ∀ results : List OsmResult, (∀ r ∈ results, r.lat.isSome ∧ r.lon.isSome) →
      buildHospitals lat lng results = some (results.map fun r =>
        { name := r.display_name.getD "Unknown Hospital",
          address := r.address_road.getD "Not Provided",
          lat := r.lat.getD .invalid, lng := r.lon.getD .invalid,
          distance := calculate_distance (.str lat) (.str lng)
            (r.lat.getD .invalid) (r.lon.getD .invalid) }) := by
  intro results
  induction results with
  | nil => intro _; rfl
  | cons r rs ih =>
    intro h
    obtain ⟨hl, ho⟩ := h r (List.mem_cons_self r rs)
    obtain ⟨rlat, hrlat⟩ := Option.isSome_iff_exists.mp hl
    obtain ⟨rlon, hrlon⟩ := Option.isSome_iff_exists.mp ho
    have ih' := ih (fun x hx => h x (List.mem_cons_of_mem r hx))
    simp only [buildHospitals, hrlat, hrlon, ih', Option.map_some, List.map_cons]
    simp [hrlat, hrlon]

/-- C1 (amended): when every candidate has its `lat`/`lon` keys present,
the lookup returns `status: ok`, keeps every candidate in provider order,
and annotates each with its own `calculate_distance` result — `None` for a
candidate whose coordinate value fails `float` coercion, the computed
distance for the rest. -/
theorem nearby_hospitals_isolates_unparseable_coords (latq lngq : Option String)
    (results : List OsmResult)
    (h : ∀ r ∈ results, r.lat.isSome ∧ r.lon.isSome) :
    nearby_hospitals latq lngq results =
      .ok (resolveCoords latq lngq).1 (resolveCoords latq lngq).2
        (results.map fun r =>
          { name := r.display_name.getD "Unknown Hospital",
            address := r.address_road.getD "Not Provided",
            lat := r.lat.getD .invalid, lng := r.lon.getD .invalid,
            distance := calculate_distance (.str (resolveCoords latq lngq).1)
              (.str (resolveCoords latq lngq).2)
              (r.lat.getD .invalid) (r.lon.getD .invalid) }) := by
  simp only [nearby_hospitals]
  rw [buildHospitals_total _ _ results h]

/-- C1 counterexample: a candidate whose coordinate key is missing
altogether makes `r["lat"]` raise `KeyError`, so the whole lookup returns
`status: error` — not an `ok` response with that candidate's distance
nulled. -/
def missingLatCandidate : OsmResult :=
  { lat := none, lon := some (.str "80.50"),
    display_name := some "Hospital A", address_road := none }

theorem nearby_hospitals_missing_key_error :
    nearby_hospitals none none [missingLatCandidate] = .error := rfl

def goodCandidate : OsmResult :=
  { lat := some (.str "16.3067"), lon := some (.str "80.4365"),
    display_name := some "General Hospital", address_road := some "Ring Road" }

def badCoordCandidate : OsmResult :=
  { lat := some (.str "not-a-number"), lon := some (.str "80.50"),
    display_name := some "Clinic B", address_road := none }

/-- C1 witness: one candidate at the origin (distance 0.00) and one with an
unparseable latitude (distance `None`), both kept, status ok. -/
theorem nearby_hospitals_isolation_witness :
    (∀ r ∈ [goodCandidate, badCoordCandidate], r.lat.isSome ∧ r.lon.isSome) ∧
    nearby_hospitals none none [goodCandidate, badCoordCandidate] =
      .ok "16.3067" "80.4365"
        [{ name := "General Hospital", address := "Ring Road",
           lat := .str "16.3067", lng := .str "80.4365", distance := some 0 },
         { name := "Clinic B", address := "Not Provided",
           lat := .str "not-a-number", lng := .str "80.50", distance := none }] := by
  have hsome : ∀ r ∈ [goodCandidate, badCoordCandidate], r.lat.isSome ∧ r.lon.isSome := by
    decide
  refine ⟨hsome, ?_⟩
  have h := nearby_hospitals_isolates_unparseable_coords none none
    [goodCandidate, badCoordCandidate] hsome
  rw [h]
  have hres : resolveCoords none none = ("16.3067", "80.4365") := rfl
  have hd1 : calculate_distance (.str "16.3067") (.str "80.4365")
      (.str "16.3067") (.str "80.4365") = some 0 := by
    unfold calculate_distance
    simp only [PyVal.toFloat?, parse_default_lat, parse_default_lng]
    exact haversineBody_self _ _
  have hd2 : calculate_distance (.str "16.3067") (.str "80.4365")
      (.str "not-a-number") (.str "80.50") = none := by
    have hbad : parseFloat? "not-a-number" = none := by decide
    unfold calculate_distance
    simp only [PyVal.toFloat?, parse_default_lat, parse_default_lng, hbad]
  simp only [hres, List.map_cons, List.map_nil, goodCandidate, badCoordCandidate]
  simp [hd1, hd2]

/-- C7: zero candidates from the provider yield `status: ok` with an empty
hospital list, not an error response. -/
theorem nearby_hospitals_empty_ok (latq lngq : Option String) :
    nearby_hospitals latq lngq [] =
      .ok (resolveCoords latq lngq).1 (resolveCoords latq lngq).2 [] := rfl

/-- C7 witness: concrete empty-result lookup. -/
theorem nearby_hospitals_empty_ok_witness :
    nearby_hospitals none none [] = .ok "16.3067" "80.4365" [] :=
  nearby_hospitals_empty_ok none none

end MajorProject
